import Mathlib

set_option linter.unusedVariables false

/-!
Verification development for the SSO-1 off-chain oracle function
(`src/oracle/offchain/function/main.py` and
`src/oracle/offchain/scoring/__init__.py`).

The Python source is embedded shallowly: dataclasses become structures,
`IntEnum`s become inductive types, and the (pure) functions become Lean
functions.  Machine-width fields are plain `Nat`/`Int`; where the on-chain
serialization fixes a width, the serializer reduces modulo `2^w`.
Bytes are `List Nat` with entries below 256.
-/

namespace SSO1

/-- Enumerated signal types, from `SignalType(IntEnum)` in both source files
(values 0..8). -/
inductive SignalType where
  | MOMENTUM
  | MEAN_REVERSION
  | VOLATILITY
  | LIQUIDITY
  | BREAKOUT
  | RISK
  | CORRELATION
  | ARBITRAGE
  | SENTIMENT
  deriving DecidableEq, Repr

/-- Integer tag of a signal type, as assigned by the Python `IntEnum`. -/
def SignalType.tag : SignalType → Nat
  | .MOMENTUM => 0
  | .MEAN_REVERSION => 1
  | .VOLATILITY => 2
  | .LIQUIDITY => 3
  | .BREAKOUT => 4
  | .RISK => 5
  | .CORRELATION => 6
  | .ARBITRAGE => 7
  | .SENTIMENT => 8

/-- Signal direction, from `Direction(IntEnum)` (NEUTRAL=0, LONG=1, SHORT=2). -/
inductive Direction where
  | NEUTRAL
  | LONG
  | SHORT
  deriving DecidableEq, Repr

/-- Integer tag of a direction, as assigned by the Python `IntEnum`. -/
def Direction.tag : Direction → Nat
  | .NEUTRAL => 0
  | .LONG => 1
  | .SHORT => 2

/-- Objective market state at a specific slot, from `@dataclass MarketContext`
in `function/main.py`.  Byte fields are `List Nat`. -/
structure MarketContext where
  slot : Nat
  asset_pair : List Nat
  price : Nat
  volume_24h : Nat
  volatility_1h : Nat
  liquidity_depth : Nat
  source_bitmap : Nat
  source_count : Nat
  deriving DecidableEq, Repr

/-- Subjective interpretation derived from a MarketContext, from
`@dataclass SignalAssessment` in `function/main.py`.  The validity-window
slots are `Int` because the Python code accepts and adds a possibly
non-positive `validity_slots`. -/
structure SignalAssessment where
  signal_type : SignalType
  direction : Direction
  magnitude : Nat
  confidence : Nat
  valid_from_slot : Int
  valid_until_slot : Int
  model_version : List Nat
  deriving DecidableEq, Repr

/-- Cryptographic attestation receipt, from `@dataclass TeeReceipt` in
`function/main.py`. -/
structure TeeReceipt where
  enclave_signer : List Nat
  attestation_hash : List Nat
  mr_enclave : List Nat
  timestamp_slot : Nat
  platform_version : Nat
  deriving DecidableEq, Repr

/-- Complete function output, from `@dataclass FunctionResult` in
`function/main.py`. -/
structure FunctionResult where
  market_context : MarketContext
  signal_assessment : SignalAssessment
  tee_receipt : TeeReceipt
  deriving DecidableEq, Repr

/-- Scoring configuration, from `@dataclass ScoringConfig` in
`scoring/__init__.py`, with the source's default field values.
`magnitude_scale_factor` is a Python float with default `1.0`; it is
modelled exactly as a rational (no function in the source ever reads it). -/
structure ScoringConfig where
  min_sources_for_confidence : Nat := 3
  min_liquidity_depth : Nat := 100000
  magnitude_scale_factor : ℚ := 1
  default_validity_slots : Nat := 25
  max_validity_slots : Nat := 100
  deriving DecidableEq, Repr

/-- The configuration produced by the Python call `ScoringConfig()`:
every field takes its declared default. -/
def defaultScoringConfig : ScoringConfig := {}

/-- `compute_confidence` from `scoring/__init__.py` (lines 82-114): the body
is the placeholder `return 0`. -/
def compute_confidence (source_count liquidity_depth volatility : Nat)
    (config : ScoringConfig) : Nat :=
  0

/-- `compute_direction` from `scoring/__init__.py` (lines 117-149): the body
is the placeholder `return Direction.NEUTRAL`. -/
def compute_direction (price volume volatility : Nat)
    (signal_type : SignalType) : Direction :=
  .NEUTRAL

/-- `compute_magnitude` from `scoring/__init__.py` (lines 152-184): the body
is the placeholder `return 50`. -/
def compute_magnitude (price volume volatility : Nat) (direction : Direction)
    (config : ScoringConfig) : Nat :=
  50

/-- `determine_signal_type` from `scoring/__init__.py` (lines 187-211): the
body is the placeholder `return SignalType.MOMENTUM`. -/
def determine_signal_type (volatility volume liquidity_depth : Nat) :
    SignalType :=
  .MOMENTUM

/-- Result of the scoring computation, from `@dataclass ScoringResult` in
`scoring/__init__.py`. -/
structure ScoringResult where
  signal_type : SignalType
  direction : Direction
  magnitude : Nat
  confidence : Nat
  deriving DecidableEq, Repr

/-- `score_market_context` from `scoring/__init__.py` (lines 228-301):
substitutes the default config when none is supplied, then chains the four
sub-computations exactly as the source does. -/
def score_market_context (slot price volume_24h volatility_1h liquidity_depth
    source_count : Nat) (config : Option ScoringConfig) : ScoringResult :=
  let cfg := config.getD defaultScoringConfig
  let signal_type := determine_signal_type volatility_1h volume_24h
    liquidity_depth
  let direction := compute_direction price volume_24h volatility_1h signal_type
  let magnitude := compute_magnitude price volume_24h volatility_1h direction
    cfg
  let confidence := compute_confidence source_count liquidity_depth
    volatility_1h cfg
  ⟨signal_type, direction, magnitude, confidence⟩

/-- Raw market data, mirroring the dict returned by `fetch_market_data` in
`function/main.py` (keys `sources`, `prices`, `volumes`, `timestamps`). -/
structure RawData where
  sources : List Nat
  prices : List Nat
  volumes : List Nat
  timestamps : List Nat
  deriving DecidableEq, Repr

/-- `derive_market_context` from `function/main.py` (lines 152-190): the body
ignores `raw_data` entirely and returns the placeholder context with every
market field zero. -/
def derive_market_context (raw_data : RawData) (asset_pair : List Nat)
    (current_slot : Nat) : MarketContext :=
  ⟨current_slot, asset_pair, 0, 0, 0, 0, 0, 0⟩

/-- `compute_signal_assessment` from `function/main.py` (lines 198-239): the
placeholder body fixes type/direction/magnitude/confidence and sets the
validity window to `[slot, slot + validity_slots]` with no check and no
clamping. -/
def compute_signal_assessment (market_context : MarketContext)
    (model_version : List Nat) (validity_slots : Int) : SignalAssessment :=
  let current_slot := market_context.slot
  ⟨.MOMENTUM, .NEUTRAL, 50, 0, current_slot,
    (current_slot : Int) + validity_slots, model_version⟩

/-- `capture_tee_attestation` from `function/main.py` (lines 247-286): the
placeholder body ignores the context and assessment and returns a receipt of
all-zero byte fields, with `timestamp_slot = current_slot`. -/
def capture_tee_attestation (market_context : MarketContext)
    (signal_assessment : SignalAssessment) (current_slot : Nat) : TeeReceipt :=
  ⟨List.replicate 32 0, List.replicate 32 0, List.replicate 32 0,
    current_slot, 0⟩

/-- The deterministic tail of `execute_function` in `function/main.py`
(lines 394-403): derive the MarketContext from raw observations at the
current slot, then score it into a SignalAssessment. -/
def run_pipeline (raw : RawData) (asset_pair model_version : List Nat)
    (validity_slots : Int) (current_slot : Nat) :
    MarketContext × SignalAssessment :=
  let ctx := derive_market_context raw asset_pair current_slot
  (ctx, compute_signal_assessment ctx model_version validity_slots)

/-- Number of set bits of a natural number (the `popcount` of the spec's
invariant `source_count == popcount(source_bitmap)`). -/
def popcount : Nat → Nat
  | 0 => 0
  | n + 1 => (n + 1) % 2 + popcount ((n + 1) / 2)
decreasing_by exact Nat.div_lt_self (Nat.succ_pos n) (by decide)

/-- Little-endian serialization of a `u64` field (spec section 6: fixed
width, little-endian byte order). -/
def u64le (n : Nat) : List Nat :=
  (List.range 8).map fun i => n / 256 ^ i % 256

/-- Little-endian serialization of a `u32` field. -/
def u32le (n : Nat) : List Nat :=
  (List.range 4).map fun i => n / 256 ^ i % 256

/-- Canonical on-chain serialization of a MarketContext (spec section 6:
`slot:u64 ‖ asset_pair:32B ‖ price:u64 ‖ volume_24h:u64 ‖ volatility_1h:u64 ‖
liquidity_depth:u64 ‖ source_bitmap:u32 ‖ source_count:u8`). -/
def serializeMarketContext (c : MarketContext) : List Nat :=
  u64le c.slot ++ c.asset_pair ++ u64le c.price ++ u64le c.volume_24h ++
    u64le c.volatility_1h ++ u64le c.liquidity_depth ++
    u32le c.source_bitmap ++ [c.source_count % 256]

/-- Canonical on-chain serialization of a SignalAssessment (spec section 6:
`signal_type:u8 ‖ direction:u8 ‖ magnitude:u8 ‖ confidence:u8 ‖
valid_from_slot:u64 ‖ valid_until_slot:u64 ‖ model_version:8B`).  The `Int`
slot fields are reduced modulo `2^64` as a `u64` wire field is. -/
def serializeSignalAssessment (s : SignalAssessment) : List Nat :=
  [s.signal_type.tag, s.direction.tag, s.magnitude % 256,
    s.confidence % 256] ++
    u64le (s.valid_from_slot % (18446744073709551616 : Int)).toNat ++
    u64le (s.valid_until_slot % (18446744073709551616 : Int)).toNat ++
    s.model_version

/-- Canonical serialization of the (MarketContext, SignalAssessment) payload
bound by the attestation hash (spec sections 4.3 and 6). -/
def canonicalPayload (c : MarketContext) (s : SignalAssessment) : List Nat :=
  serializeMarketContext c ++ serializeSignalAssessment s

/-! ### SHA-256

`TeeReceipt.attestation_hash` is documented in `function/main.py` as the
SHA-256 of the attestation payload, and the spec requires the cryptographic
hash of the canonical serialization.  SHA-256 (FIPS 180-4) over byte lists is
implemented here so that claim C1 can be evaluated on concrete inputs. -/

/-- Reduce to a 32-bit word. -/
def w32 (x : Nat) : Nat := x % 4294967296

/-- Right rotation of a 32-bit word by `n`. -/
def rotr32 (n x : Nat) : Nat :=
  w32 (Nat.lor (Nat.shiftRight x n) (Nat.shiftLeft x (32 - n)))

/-- SHA-256 choice function. -/
def shaCh (e f g : Nat) : Nat :=
  Nat.xor (Nat.land e f) (Nat.land (4294967295 - e) g)

/-- SHA-256 majority function. -/
def shaMaj (a b c : Nat) : Nat :=
  Nat.xor (Nat.xor (Nat.land a b) (Nat.land a c)) (Nat.land b c)

/-- SHA-256 big sigma-0. -/
def bigSigma0 (x : Nat) : Nat :=
  Nat.xor (Nat.xor (rotr32 2 x) (rotr32 13 x)) (rotr32 22 x)

/-- SHA-256 big sigma-1. -/
def bigSigma1 (x : Nat) : Nat :=
  Nat.xor (Nat.xor (rotr32 6 x) (rotr32 11 x)) (rotr32 25 x)

/-- SHA-256 small sigma-0. -/
def smallSigma0 (x : Nat) : Nat :=
  Nat.xor (Nat.xor (rotr32 7 x) (rotr32 18 x)) (Nat.shiftRight x 3)

/-- SHA-256 small sigma-1. -/
def smallSigma1 (x : Nat) : Nat :=
  Nat.xor (Nat.xor (rotr32 17 x) (rotr32 19 x)) (Nat.shiftRight x 10)

/-- SHA-256 round constants (FIPS 180-4, section 4.2.2), written in
decimal. -/
def shaK : List Nat :=
  [1116352408, 1899447441, 3049323471, 3921009573, 961987163,
   1508970993, 2453635748, 2870763221, 3624381080, 310598401,
   607225278, 1426881987, 1925078388, 2162078206, 2614888103,
   3248222580, 3835390401, 4022224774, 264347078, 604807628,
   770255983, 1249150122, 1555081692, 1996064986, 2554220882,
   2821834349, 2952996808, 3210313671, 3336571891, 3584528711,
   113926993, 338241895, 666307205, 773529912, 1294757372,
   1396182291, 1695183700, 1986661051, 2177026350, 2456956037,
   2730485921, 2820302411, 3259730800, 3345764771, 3516065817,
   3600352804, 4094571909, 275423344, 430227734, 506948616,
   659060556, 883997877, 958139571, 1322822218, 1537002063,
   1747873779, 1955562222, 2024104815, 2227730452, 2361852424,
   2428436474, 2756734187, 3204031479, 3329325298]

/-- SHA-256 initial hash value (FIPS 180-4, section 5.3.3), written in
decimal. -/
def shaH0 : List Nat :=
  [1779033703, 3144134277, 1013904242, 2773480762,
   1359893119, 2600822924, 528734635, 1541459225]

/-- Big-endian bytes of a 32-bit word. -/
def u32be (x : Nat) : List Nat :=
  [x / 16777216 % 256, x / 65536 % 256, x / 256 % 256, x % 256]

/-- Big-endian bytes of a 64-bit word. -/
def u64be (x : Nat) : List Nat :=
  (List.range 8).map fun i => x / 256 ^ (7 - i) % 256

/-- SHA-256 message padding: append `0x80`, zero bytes to 56 mod 64, then the
bit length as a big-endian u64. -/
def shaPad (msg : List Nat) : List Nat :=
  msg ++ [128] ++ List.replicate ((119 - msg.length % 64) % 64) 0 ++
    u64be (8 * msg.length)

/-- Parse a 64-byte block into 16 big-endian 32-bit words. -/
def blockWords (b : List Nat) : List Nat :=
  (List.range 16).map fun i =>
    b.getD (4 * i) 0 * 16777216 + b.getD (4 * i + 1) 0 * 65536 +
      b.getD (4 * i + 2) 0 * 256 + b.getD (4 * i + 3) 0

/-- Extend 16 message-schedule words to 64 (FIPS 180-4, section 6.2.2
step 1). -/
def extendWords (w : List Nat) : List Nat :=
  (List.range 48).foldl
    (fun acc i =>
      acc ++ [w32 (smallSigma1 (acc.getD (i + 14) 0) + acc.getD (i + 9) 0 +
        smallSigma0 (acc.getD (i + 1) 0) + acc.getD i 0)])
    w

/-- One SHA-256 compression step over working variables `[a,b,c,d,e,f,g,h]`
with round constant `k` and schedule word `wi`. -/
def shaRound (st : List Nat) (k wi : Nat) : List Nat :=
  let a := st.getD 0 0
  let b := st.getD 1 0
  let c := st.getD 2 0
  let d := st.getD 3 0
  let e := st.getD 4 0
  let f := st.getD 5 0
  let g := st.getD 6 0
  let h := st.getD 7 0
  let t1 := w32 (h + bigSigma1 e + shaCh e f g + k + wi)
  let t2 := w32 (bigSigma0 a + shaMaj a b c)
  [w32 (t1 + t2), a, b, c, w32 (d + t1), e, f, g]

/-- SHA-256 compression of one 64-byte block into the running hash state. -/
def shaCompress (h : List Nat) (block : List Nat) : List Nat :=
  let w := extendWords (blockWords block)
  let s := (List.range 64).foldl
    (fun st i => shaRound st (shaK.getD i 0) (w.getD i 0)) h
  (List.range 8).map fun i => w32 (h.getD i 0 + s.getD i 0)

/-- SHA-256 of a byte list, as 32 output bytes (FIPS 180-4). -/
def sha256 (msg : List Nat) : List Nat :=
  let padded := shaPad msg
  let blocks := (List.range (padded.length / 64)).map
    fun i => (padded.drop (64 * i)).take 64
  (blocks.foldl shaCompress shaH0).foldr (fun x acc => u32be x ++ acc) []

/-! ### Concrete sample values used by the claim theorems -/

/-- A concrete MarketContext: slot 100, zero asset-pair id, price 50e9,
volume 1e6, volatility 250000, liquidity 500000, bitmap `0b11111`,
five sources. -/
def sampleContext : MarketContext :=
  ⟨100, List.replicate 32 0, 50000000000, 1000000, 250000, 500000, 31, 5⟩

/-- A concrete SignalAssessment matching the placeholder scoring output at
slot 100 with a 25-slot validity window. -/
def sampleAssessment : SignalAssessment :=
  ⟨.MOMENTUM, .NEUTRAL, 50, 0, 100, 125, List.replicate 8 0⟩

/-- A concrete MarketContext with a single contributing source, below the
default `min_sources_for_confidence = 3`. -/
def thinContext : MarketContext :=
  ⟨100, List.replicate 32 0, 42, 10, 5, 200000, 1, 1⟩

/-- Raw observations from only two sources (ids 1 and 2), below the default
minimum of three. -/
def twoSourceRaw : RawData :=
  ⟨[1, 2], [1000000000, 1000000005], [600, 400], [40, 41]⟩

set_option maxRecDepth 4000

/-! ### Validation of the SHA-256 implementation (FIPS 180-4 vectors) -/

/-- FIPS 180-4 test vector: SHA-256 of the empty message
(e3b0c442...b855, bytes written in decimal). -/
theorem sha256_empty_vector :
    sha256 [] = [227, 176, 196, 66, 152, 252, 28, 20, 154, 251, 244, 200,
      153, 111, 185, 36, 39, 174, 65, 228, 100, 155, 147, 76, 164, 149,
      153, 27, 120, 82, 184, 85] := by decide

/-- FIPS 180-4 test vector: SHA-256 of the three-byte message "abc"
(ba7816bf...15ad, bytes written in decimal). -/
theorem sha256_abc_vector :
    sha256 [97, 98, 99] = [186, 120, 22, 191, 143, 1, 207, 234, 65, 65, 64,
      222, 93, 174, 34, 35, 176, 3, 97, 163, 150, 23, 122, 156, 180, 16,
      255, 97, 242, 0, 21, 173] := by decide

/-! ### Helper lemmas shared by claim theorems -/

/-- The scoring pipeline returns the same constant for every input: each of
the four placeholder sub-computations ignores its arguments. -/
theorem score_market_context_const (slot price volume_24h volatility_1h
    liquidity_depth source_count : Nat) (config : Option ScoringConfig) :
    score_market_context slot price volume_24h volatility_1h liquidity_depth
      source_count config = ⟨.MOMENTUM, .NEUTRAL, 50, 0⟩ :=
  rfl

/-! ### Claim theorems -/

/-- Claim C1: the claim says `attestation_hash` equals the SHA-256 of the
canonical serialization of (MarketContext, SignalAssessment).  It fails:
`capture_tee_attestation` stores 32 zero bytes without hashing anything, and
the SHA-256 of the canonical payload of a concrete input is not 32 zero
bytes. -/
theorem c1_attestation_hash_not_payload_hash :
    (capture_tee_attestation sampleContext sampleAssessment
        100).attestation_hash ≠
      sha256 (canonicalPayload sampleContext sampleAssessment) := by
  decide

/-- Claim C2: the claim says the validity window is clamped to
`min(requested, max_validity_slots)`.  It fails: at a requested validity of
500 slots the produced window has length 500, not
`min 500 100 = 100` as required under the default configuration. -/
theorem c2_validity_window_not_clamped :
    (compute_signal_assessment sampleContext (List.replicate 8 0)
          500).valid_until_slot -
        (compute_signal_assessment sampleContext (List.replicate 8 0)
          500).valid_from_slot = 500 ∧
      (500 : Int) ≠
        ((min 500 defaultScoringConfig.max_validity_slots : Nat) : Int) := by
  refine ⟨by decide, by decide⟩

/-- Claim C3: whenever `source_count < min_sources_for_confidence` or
`liquidity_depth < min_liquidity_depth`, the computed confidence is exactly
zero, for every MarketContext and every ScoringConfig.  Holds: the
placeholder `compute_confidence` returns 0 unconditionally, so in particular
under the gate condition. -/
theorem c3_confidence_hard_gate (ctx : MarketContext) (config : ScoringConfig)
    (h : ctx.source_count < config.min_sources_for_confidence ∨
      ctx.liquidity_depth < config.min_liquidity_depth) :
    compute_confidence ctx.source_count ctx.liquidity_depth ctx.volatility_1h
      config = 0 :=
  rfl

/-- Witness for claim C3 at a concrete thin context (1 source under the
default minimum of 3). -/
theorem c3_confidence_hard_gate_witness :
    (thinContext.source_count <
        defaultScoringConfig.min_sources_for_confidence ∨
      thinContext.liquidity_depth < defaultScoringConfig.min_liquidity_depth) ∧
    compute_confidence thinContext.source_count thinContext.liquidity_depth
      thinContext.volatility_1h defaultScoringConfig = 0 :=
  ⟨Or.inl (by decide),
    c3_confidence_hard_gate thinContext defaultScoringConfig
      (Or.inl (by decide))⟩

/-- Claim C4: the claim says the Context Builder fails with
`InsufficientSources` (resp. `StaleData`) instead of returning a partial
MarketContext.  It fails: `derive_market_context` is total and, on raw data
with only two sources (below the default minimum of three), returns the
all-zero placeholder MarketContext rather than signalling any error. -/
theorem c4_returns_placeholder_on_insufficient_sources :
    twoSourceRaw.sources.length <
        defaultScoringConfig.min_sources_for_confidence ∧
      derive_market_context twoSourceRaw (List.replicate 32 0) 42 =
        ⟨42, List.replicate 32 0, 0, 0, 0, 0, 0, 0⟩ := by
  refine ⟨by decide, rfl⟩

/-- Claim C5: determinism.  Identical `(MarketContext, ScoringConfig)`
inputs give identical ScoringResults; identical `(MarketContext,
model_version, validity)` inputs give byte-identical serialized
SignalAssessments; and identical raw observations with the same current slot
give byte-identical serialized MarketContext and SignalAssessment through
the pipeline.  Holds: every embedded function is pure. -/
theorem c5_determinism (ctx ctx' : MarketContext)
    (cfg cfg' : Option ScoringConfig) (mv mv' ap ap' : List Nat) (v v' : Int)
    (raw raw' : RawData) (s s' : Nat)
    (h1 : ctx = ctx') (h2 : cfg = cfg') (h3 : mv = mv') (h4 : v = v')
    (h5 : raw = raw') (h6 : ap = ap') (h7 : s = s') :
    score_market_context ctx.slot ctx.price ctx.volume_24h ctx.volatility_1h
        ctx.liquidity_depth ctx.source_count cfg =
      score_market_context ctx'.slot ctx'.price ctx'.volume_24h
        ctx'.volatility_1h ctx'.liquidity_depth ctx'.source_count cfg' ∧
    serializeSignalAssessment (compute_signal_assessment ctx mv v) =
      serializeSignalAssessment (compute_signal_assessment ctx' mv' v') ∧
    serializeMarketContext (run_pipeline raw ap mv v s).1 =
      serializeMarketContext (run_pipeline raw' ap' mv' v' s').1 ∧
    serializeSignalAssessment (run_pipeline raw ap mv v s).2 =
      serializeSignalAssessment (run_pipeline raw' ap' mv' v' s').2 := by
  subst h1 h2 h3 h4 h5 h6 h7
  exact ⟨rfl, rfl, rfl, rfl⟩

/-- Witness for claim C5 at concrete inputs. -/
theorem c5_determinism_witness :
    score_market_context sampleContext.slot sampleContext.price
        sampleContext.volume_24h sampleContext.volatility_1h
        sampleContext.liquidity_depth sampleContext.source_count
        (some defaultScoringConfig) =
      score_market_context sampleContext.slot sampleContext.price
        sampleContext.volume_24h sampleContext.volatility_1h
        sampleContext.liquidity_depth sampleContext.source_count
        (some defaultScoringConfig) ∧
    serializeSignalAssessment
        (compute_signal_assessment sampleContext (List.replicate 8 0) 25) =
      serializeSignalAssessment
        (compute_signal_assessment sampleContext (List.replicate 8 0) 25) ∧
    serializeMarketContext
        (run_pipeline twoSourceRaw (List.replicate 32 0) (List.replicate 8 0)
          25 100).1 =
      serializeMarketContext
        (run_pipeline twoSourceRaw (List.replicate 32 0) (List.replicate 8 0)
          25 100).1 ∧
    serializeSignalAssessment
        (run_pipeline twoSourceRaw (List.replicate 32 0) (List.replicate 8 0)
          25 100).2 =
      serializeSignalAssessment
        (run_pipeline twoSourceRaw (List.replicate 32 0) (List.replicate 8 0)
          25 100).2 :=
  c5_determinism sampleContext sampleContext (some defaultScoringConfig)
    (some defaultScoringConfig) (List.replicate 8 0) (List.replicate 8 0)
    (List.replicate 32 0) (List.replicate 32 0) 25 25 twoSourceRaw
    twoSourceRaw 100 100 rfl rfl rfl rfl rfl rfl rfl

/-- Claim C6: the claim says a requested validity window ≤ 0 fails with
`InvalidValidityWindow` and produces no SignalAssessment.  It fails: at
requested validity −5 the code returns a full SignalAssessment whose window
is inverted (`valid_until_slot = 95 < valid_from_slot = 100`), raising no
error. -/
theorem c6_no_error_on_nonpositive_validity :
    compute_signal_assessment sampleContext (List.replicate 8 0) (-5) =
      ⟨.MOMENTUM, .NEUTRAL, 50, 0, 100, 95, List.replicate 8 0⟩ :=
  rfl

/-- Claim C7: the claim says a mismatched enclave measurement fails with
`UnverifiedEnclave` and no TeeReceipt or FunctionResult is produced.  It
fails: `capture_tee_attestation` performs no measurement check at all — for
every input it unconditionally returns the placeholder receipt with all-zero
signer, hash and measurement. -/
theorem c7_receipt_always_produced (ctx : MarketContext)
    (sa : SignalAssessment) (slot : Nat) :
    capture_tee_attestation ctx sa slot =
      ⟨List.replicate 32 0, List.replicate 32 0, List.replicate 32 0,
        slot, 0⟩ :=
  rfl

/-- Claim C8: every MarketContext produced by `derive_market_context`
satisfies `source_count = popcount source_bitmap`.  Holds: the placeholder
output has `source_bitmap = 0` and `source_count = 0 = popcount 0` for every
input, and no source ever contributes a bit. -/
theorem c8_source_count_is_popcount (raw : RawData) (ap : List Nat)
    (slot : Nat) :
    (derive_market_context raw ap slot).source_count =
      popcount (derive_market_context raw ap slot).source_bitmap := by
  simp [derive_market_context, popcount]

/-- Claim C9: for every input, magnitude and confidence lie in [0,100] and
the direction is one of NEUTRAL, LONG, SHORT.  Holds: the scoring output is
the constant `⟨MOMENTUM, NEUTRAL, 50, 0⟩`, and 50, 0 ∈ [0,100]. -/
theorem c9_output_ranges (slot price volume_24h volatility_1h liquidity_depth
    source_count : Nat) (config : Option ScoringConfig) :
    (score_market_context slot price volume_24h volatility_1h liquidity_depth
        source_count config).magnitude ≤ 100 ∧
    (score_market_context slot price volume_24h volatility_1h liquidity_depth
        source_count config).confidence ≤ 100 ∧
    ((score_market_context slot price volume_24h volatility_1h liquidity_depth
        source_count config).direction = .NEUTRAL ∨
      (score_market_context slot price volume_24h volatility_1h
        liquidity_depth source_count config).direction = .LONG ∨
      (score_market_context slot price volume_24h volatility_1h
        liquidity_depth source_count config).direction = .SHORT) := by
  rw [score_market_context_const]
  exact ⟨by decide, by decide, Or.inl rfl⟩

/-- Claim C10: `score_market_context` returns exactly
`ScoringResult(MOMENTUM, NEUTRAL, 50, 0)` for every market input and every
configuration (including the default substituted for `none`).  Holds: all
four placeholder sub-computations ignore their inputs. -/
theorem c10_score_is_constant (slot price volume_24h volatility_1h
    liquidity_depth source_count : Nat) (config : Option ScoringConfig) :
    score_market_context slot price volume_24h volatility_1h liquidity_depth
      source_count config = ⟨.MOMENTUM, .NEUTRAL, 50, 0⟩ :=
  rfl

end SSO1
